import Mathlib

/-
Verification development for the Aperture wizard-of-oz face-alignment code.

Embedded sources:
  * projects/wizard-of-oz/align_photo_opencv.py   (closed-form similarity via
    cv2.estimateAffinePartial2D + cv2.warpAffine)
  * projects/wizard-of-oz/api/align-photo-v4.py   (multi-step rotate, scale,
    crop pipeline, plus debug overlay)

Modelling conventions:
  * Pixel coordinates are rationals; the Python code uses IEEE doubles.  All
    concrete scenarios proved below use axis-aligned eye vectors, for which the
    relevant double computations are exact (checked by hand: degrees(atan2) on
    a half axis yields exactly 0, 90, -90 or 180, and cos/sin of 0 are exactly
    1 and 0), so the rational model agrees with the double model there.
  * Python int(x) truncates toward zero; embedded as pyInt.
  * int(np.hypot(w, h)) for natural w, h is embedded as Nat.sqrt (w*w + h*h),
    the floor of the exact square root.
  * Fallible steps (decode failure, the unguarded division by a zero eye
    distance followed by int(inf) raising OverflowError, cv2.resize on empty
    output, the numpy canvas copy raising ValueError on shape mismatch) are
    modelled with Except.
  * cv2.estimateAffinePartial2D on exactly two distinct point pairs returns
    the unique similarity mapping the source pair onto the destination pair
    (two correspondences determine the four degrees of freedom exactly); on
    two coincident source points no model exists and it returns None, which
    makes the following cv2.warpAffine call raise.  The similarity is encoded
    as a complex number alpha (rotation and scale) plus a translation beta,
    acting on points seen as complex numbers.
-/

namespace Aperture

/-- Point2D: a pixel coordinate, also used as a complex number over the
rationals. -/
abbrev Pt := ℚ × ℚ

/-- TARGET_LEFT_EYE from both source files. -/
def TARGET_LEFT_EYE : Pt := (720, 432)

/-- TARGET_RIGHT_EYE from both source files. -/
def TARGET_RIGHT_EYE : Pt := (360, 432)

/-- TARGET_INTER_EYE_DISTANCE from align-photo-v4.py. -/
def TARGET_INTER_EYE_DISTANCE : ℚ := 360

/-- OUTPUT_SIZE from both source files. -/
def OUTPUT_SIZE : ℕ × ℕ := (1080, 1080)

/-- Python int(), truncation toward zero: the floor for nonnegative
arguments, and the ceiling, written as -floor(-q), for negative ones. -/
def pyInt (q : ℚ) : ℤ := if 0 ≤ q then ⌊q⌋ else -⌊-q⌋

/-- Complex addition on rational pairs. -/
def cadd (z w : Pt) : Pt := (z.1 + w.1, z.2 + w.2)

/-- Complex subtraction on rational pairs. -/
def csub (z w : Pt) : Pt := (z.1 - w.1, z.2 - w.2)

/-- Complex multiplication on rational pairs. -/
def cmul (z w : Pt) : Pt := (z.1 * w.1 - z.2 * w.2, z.1 * w.2 + z.2 * w.1)

/-- Squared modulus of a rational complex number. -/
def cnormSq (z : Pt) : ℚ := z.1 ^ 2 + z.2 ^ 2

/-- Complex division on rational pairs: z times the conjugate of w over the
squared modulus of w. -/
def cdiv (z w : Pt) : Pt :=
  ((z.1 * w.1 + z.2 * w.2) / cnormSq w, (z.2 * w.1 - z.1 * w.2) / cnormSq w)

namespace OpenCVAlign

/-- Failure outcomes of align_face in align_photo_opencv.py: the early return
on cv2.imread giving None, and the cv2 exception raised by warpAffine when
estimateAffinePartial2D found no model (coincident source points). -/
inductive Err where
  | readFailure : Err
  | warpNullMatrix : Err
deriving DecidableEq

/-- cv2.estimateAffinePartial2D on the two source points and the two fixed
target points: the unique similarity (alpha, beta) with
map p = alpha * p + beta, mapping src1 to TARGET_LEFT_EYE and src2 to
TARGET_RIGHT_EYE; none when the two source points coincide. -/
def estimateAffinePartial2D (src1 src2 : Pt) : Option (Pt × Pt) :=
  if src1 = src2 then none
  else
    let a := cdiv (csub TARGET_RIGHT_EYE TARGET_LEFT_EYE) (csub src2 src1)
    some (a, csub TARGET_LEFT_EYE (cmul a src1))

/-- Action of the similarity matrix computed by estimateAffinePartial2D on a
point. -/
def applySim (M : Pt × Pt) (p : Pt) : Pt := cadd (cmul M.1 p) M.2

/-- align_face from align_photo_opencv.py.  The decoded image is abstracted to
its dimensions (None when cv2.imread failed).  On success the output raster
has the dimensions passed to warpAffine, namely OUTPUT_SIZE. -/
def align_face (img : Option (ℕ × ℕ)) (le re : Pt) : Except Err (ℕ × ℕ) :=
  match img with
  | none => .error .readFailure
  | some _ =>
    match estimateAffinePartial2D le re with
    | none => .error .warpNullMatrix
    | some _ => .ok OUTPUT_SIZE

end OpenCVAlign

namespace V4

/-- Failure outcomes of align_face in align-photo-v4.py: the early return None
on cv2.imdecode failure; the OverflowError raised by int() on the infinite
scale produced by the unguarded division by a zero eye distance; the cv2
error raised by resize on an empty output size; and the numpy ValueError
raised by the canvas copy on mismatched slice shapes. -/
inductive Err where
  | decodeFailure : Err
  | divisionByZeroEyeDistance : Err
  | resizeEmptyOutput : Err
  | copyShapeMismatch : Err
deriving DecidableEq

/-- Point transform of cv2.getRotationMatrix2D ((cx, cy), angle, 1.0) with
alpha = cos angle and beta = sin angle, applied to (x, y); rows of the matrix
are [alpha, beta, (1-alpha)*cx - beta*cy] and [-beta, alpha,
beta*cx + (1-alpha)*cy]. -/
def rotApply (al be cx cy x y : ℚ) : ℚ × ℚ :=
  (al * x + be * y + ((1 - al) * cx - be * cy),
   -be * x + al * y + (be * cx + (1 - al) * cy))

/-- angle_deg = abs(degrees(np.arctan2(delta_x, delta_y))) - 90 from
align-photo-v4.py, embedded on the axis-aligned inputs where the double
computation is exact (np.arctan2 on a half axis followed by np.degrees gives
exactly 0, 90, -90 or 180); none elsewhere, where the value is irrational. -/
def angle_deg (dx dy : ℚ) : Option ℚ :=
  if dx = 0 ∧ dy = 0 then some (-90)
  else if dy = 0 then some 0
  else if dx = 0 ∧ 0 < dy then some (-90)
  else if dx = 0 ∧ dy < 0 then some 90
  else none

/-- All intermediate quantities of the align_face pipeline in
align-photo-v4.py, for a decoded image of width w and height h, eyes le and
re, and rotation coefficients al = cos(angle_deg), be = sin(angle_deg). -/
structure Geom where
  m : ℕ
  bw : ℕ
  bh : ℕ
  lx : ℚ
  ly : ℚ
  rx : ℚ
  ry : ℚ
  rxn : ℚ
  ryn : ℚ
  d : ℚ
  s : ℚ
  newW : ℤ
  newH : ℤ
  lxs : ℚ
  lys : ℚ
  rxs : ℚ
  rys : ℚ
  ecx : ℚ
  ecy : ℚ
  cropL : ℤ
  cropT : ℤ
  cropR : ℤ
  cropB : ℤ
  sx1 : ℤ
  sy1 : ℤ
  sx2 : ℤ
  sy2 : ℤ
  dx1 : ℤ
  dy1 : ℤ
  dx2 : ℤ
  dy2 : ℤ
deriving DecidableEq

/-- The pipeline geometry of align_face in align-photo-v4.py: border add,
rotate around the left eye, scale to the target inter-eye distance, crop
bounds and their numpy clamps.  the scale s is the rational division; the
caller checks d = 0 separately (the Python code divides unguarded, producing
inf). -/
def geom (w h : ℕ) (le re : Pt) (al be : ℚ) : Geom :=
  let m : ℕ := Nat.sqrt (w * w + h * h)
  let lx : ℚ := le.1 + m
  let ly : ℚ := le.2 + m
  let rx : ℚ := re.1 + m
  let ry : ℚ := re.2 + m
  let rn := rotApply al be lx ly rx ry
  let d : ℚ := |rn.1 - lx|
  let s : ℚ := TARGET_INTER_EYE_DISTANCE / d
  let bw : ℕ := w + 2 * m
  let bh : ℕ := h + 2 * m
  let newW : ℤ := pyInt ((bw : ℚ) * s)
  let newH : ℤ := pyInt ((bh : ℚ) * s)
  let lxs : ℚ := lx * s
  let lys : ℚ := ly * s
  let rxs : ℚ := rn.1 * s
  let rys : ℚ := rn.2 * s
  let ecx : ℚ := (lxs + rxs) / 2
  let ecy : ℚ := (lys + rys) / 2
  let cropL : ℤ := pyInt (ecx - (OUTPUT_SIZE.1 : ℚ) / 2)
  let cropT : ℤ := pyInt (ecy - (TARGET_LEFT_EYE.2 : ℚ))
  let cropR : ℤ := cropL + OUTPUT_SIZE.1
  let cropB : ℤ := cropT + OUTPUT_SIZE.2
  let sx1 : ℤ := max 0 cropL
  let sy1 : ℤ := max 0 cropT
  let sx2 : ℤ := min newW cropR
  let sy2 : ℤ := min newH cropB
  { m := m, bw := bw, bh := bh, lx := lx, ly := ly, rx := rx, ry := ry,
    rxn := rn.1, ryn := rn.2, d := d, s := s, newW := newW, newH := newH,
    lxs := lxs, lys := lys, rxs := rxs, rys := rys, ecx := ecx, ecy := ecy,
    cropL := cropL, cropT := cropT, cropR := cropR, cropB := cropB,
    sx1 := sx1, sy1 := sy1, sx2 := sx2, sy2 := sy2,
    dx1 := sx1 - cropL, dy1 := sy1 - cropT,
    dx2 := (sx1 - cropL) + (sx2 - sx1), dy2 := (sy1 - cropT) + (sy2 - sy1) }

/-- Effective numpy index of i into an axis of length n: negative indices
count from the end, then the result is clipped into [0, n]. -/
def npIndexClip (n : ℕ) (i : ℤ) : ℕ :=
  if i < 0 then ((n : ℤ) + i).toNat else min i.toNat n

/-- Length of the numpy slice a[i:j] on an axis of length n. -/
def npSliceLen (n : ℕ) (i j : ℤ) : ℕ :=
  npIndexClip n j - npIndexClip n i

/-- Whether the numpy canvas copy
aligned[dst_y1:dst_y2, dst_x1:dst_x2] = scaled[src_y1:src_y2, src_x1:src_x2]
succeeds: per axis the source length must equal the destination length or be
1 (numpy broadcasting). -/
def copyOK (g : Geom) : Bool :=
  let srcH := npSliceLen g.newH.toNat g.sy1 g.sy2
  let srcW := npSliceLen g.newW.toNat g.sx1 g.sx2
  let dstH := npSliceLen OUTPUT_SIZE.2 g.dy1 g.dy2
  let dstW := npSliceLen OUTPUT_SIZE.1 g.dx1 g.dx2
  (srcH == dstH || srcH == 1) && (srcW == dstW || srcW == 1)

/-- align_face from align-photo-v4.py, up to the raster dimensions of the
aligned canvas.  The decoded image is abstracted to its dimensions (None when
cv2.imdecode failed).  The rotation coefficients al, be stand for the cosine
and sine of the computed angle (see angle_deg).  The canvas is created by
np.full((1080, 1080, 3), 255), so on success the output dimensions are
OUTPUT_SIZE. -/
def align_face (img : Option (ℕ × ℕ)) (le re : Pt) (al be : ℚ) :
    Except Err (ℕ × ℕ) :=
  match img with
  | none => .error .decodeFailure
  | some (w, h) =>
    let g := geom w h le re al be
    if g.d = 0 then .error .divisionByZeroEyeDistance
    else if g.newW ≤ 0 ∨ g.newH ≤ 0 then .error .resizeEmptyOutput
    else if copyOK g then .ok OUTPUT_SIZE else .error .copyShapeMismatch

/-- Position of the left eye in the cropped output canvas: its position in the
scaled image minus the crop offset. -/
def outLeft (g : Geom) : Pt := (g.lxs - g.cropL, g.lys - g.cropT)

/-- Position of the right eye in the cropped output canvas. -/
def outRight (g : Geom) : Pt := (g.rxs - g.cropL, g.rys - g.cropT)

/-- The ideal real-number version of the multi-step map (no integer
truncation of the crop offsets): output positions of the two eyes when the
crop offset is taken exactly as (ecx - 540, ecy - 432). -/
def idealOut (w h : ℕ) (le re : Pt) (al be : ℚ) : Pt × Pt :=
  let g := geom w h le re al be
  ((g.lxs - (g.ecx - (OUTPUT_SIZE.1 : ℚ) / 2),
    g.lys - (g.ecy - (TARGET_LEFT_EYE.2 : ℚ))),
   (g.rxs - (g.ecx - (OUTPUT_SIZE.1 : ℚ) / 2),
    g.rys - (g.ecy - (TARGET_LEFT_EYE.2 : ℚ))))

end V4

/-- BGR color triple, 8-bit channels. -/
abbrev Color := ℕ × ℕ × ℕ

/-- White, the canvas background (255, 255, 255). -/
def WHITE : Color := (255, 255, 255)

/-- Yellow in BGR, the crosshair color (0, 255, 255). -/
def YELLOW : Color := (0, 255, 255)

/-- Blue in BGR, the target-dot color (255, 0, 0). -/
def BLUE : Color := (255, 0, 0)

/-- Green in BGR, the detected-eye dot color (0, 255, 0). -/
def GREEN : Color := (0, 255, 0)

/-- Whether (x, y) lies in the filled disk of radius r around (cx, cy);
pixel membership for cv2.circle with thickness -1.  Actual cv2 rasterization
may differ at the boundary, but the theorems below only use pixels at the
exact center of a primitive, where every rasterization agrees. -/
def inDisk (cx cy r x y : ℤ) : Bool :=
  (x - cx) ^ 2 + (y - cy) ^ 2 ≤ r ^ 2

namespace V4

/-- Pixel content of the aligned canvas built by align-photo-v4.py: the white
np.full canvas with the block copied from the scaled image.  scaledPix is the
(unmodelled, resampled) pixel content of the scaled image.  The raw dst
bounds are used directly; this matches numpy for the runs used below, where
the destination slice is either inside [0, 1080] or empty. -/
def canvasPix (g : Geom) (scaledPix : ℤ → ℤ → Color) (x y : ℕ) : Color :=
  if g.dx1 ≤ (x : ℤ) ∧ (x : ℤ) < g.dx2 ∧ g.dy1 ≤ (y : ℤ) ∧ (y : ℤ) < g.dy2
  then scaledPix ((x : ℤ) + g.cropL) ((y : ℤ) + g.cropT)
  else WHITE

/-- A scaled image that is entirely white. -/
def constWhite : ℤ → ℤ → Color := fun _ _ => WHITE

/-- Pixel content of debug_img, the image align-photo-v4.py actually encodes
and returns: the aligned canvas with the debug markers drawn over it, in the
draw order of the code (green detected-eye dots when det is present, blue
target dots, the yellow horizontal 2-px line through y = 432, the yellow
vertical 1-px lines at x = 720 and x = 360; later draws overwrite earlier
ones).  The 2-px horizontal line covers its center row 432 and a neighbor
row, taken here as 431. -/
def overlayPix (base : ℕ → ℕ → Color) (det : Option ((ℤ × ℤ) × (ℤ × ℤ)))
    (x y : ℕ) : Color :=
  if x = 720 ∨ x = 360 then YELLOW
  else if y = 432 ∨ y = 431 then YELLOW
  else if inDisk 720 432 8 x y ∨ inDisk 360 432 8 x y then BLUE
  else
    match det with
    | some (e1, e2) =>
      if inDisk e1.1 e1.2 6 x y ∨ inDisk e2.1 e2.2 6 x y then GREEN
      else base x y
    | none => base x y

end V4

/- Helper lemmas. -/

theorem pyInt_nonneg (q : ℚ) (h : 0 ≤ q) : 0 ≤ pyInt q := by
  simp only [pyInt, if_pos h]
  exact Int.floor_nonneg.mpr h

theorem cnormSq_ne_zero (w : Pt) (h : w ≠ (0, 0)) : cnormSq w ≠ 0 := by
  intro hc
  apply h
  unfold cnormSq at hc
  have h1 : w.1 ^ 2 = 0 := by nlinarith [sq_nonneg w.1, sq_nonneg w.2]
  have h2 : w.2 ^ 2 = 0 := by nlinarith [sq_nonneg w.1, sq_nonneg w.2]
  have hx : w.1 = 0 := pow_eq_zero_iff (n := 2) (by norm_num) |>.mp h1
  have hy : w.2 = 0 := pow_eq_zero_iff (n := 2) (by norm_num) |>.mp h2
  exact Prod.ext hx hy

theorem cmul_cdiv_cancel (z w : Pt) (h : w ≠ (0, 0)) : cmul (cdiv z w) w = z := by
  have hn : cnormSq w ≠ 0 := cnormSq_ne_zero w h
  have hn2 : w.1 ^ 2 + w.2 ^ 2 ≠ 0 := hn
  unfold cmul cdiv cnormSq
  apply Prod.ext <;> field_simp <;> ring

/-- The similarity returned by the embedded estimateAffinePartial2D maps both
source landmarks exactly onto the two targets, whenever the source points are
distinct. -/
theorem applySim_exact (sl sr : Pt) (h : sl ≠ sr) :
    (OpenCVAlign.estimateAffinePartial2D sl sr).map
        (fun M => (OpenCVAlign.applySim M sl, OpenCVAlign.applySim M sr)) =
      some (TARGET_LEFT_EYE, TARGET_RIGHT_EYE) := by
  unfold OpenCVAlign.estimateAffinePartial2D
  rw [if_neg h]
  simp only [Option.map_some]
  have hw : csub sr sl ≠ (0, 0) := by
    intro hc
    apply h
    have h1 : sr.1 - sl.1 = 0 := congrArg Prod.fst hc
    have h2 : sr.2 - sl.2 = 0 := congrArg Prod.snd hc
    apply Prod.ext <;> [skip; skip] <;> linarith
  set a : Pt := cdiv (csub TARGET_RIGHT_EYE TARGET_LEFT_EYE) (csub sr sl)
    with ha
  have hcancel : cmul a (csub sr sl) = csub TARGET_RIGHT_EYE TARGET_LEFT_EYE :=
    cmul_cdiv_cancel _ _ hw
  have h1 := congrArg Prod.fst hcancel
  have h2 := congrArg Prod.snd hcancel
  unfold cmul csub at h1 h2
  simp only at h1 h2
  rw [Option.map_some']
  refine congrArg some (Prod.ext ?_ ?_)
  · unfold OpenCVAlign.applySim cadd cmul csub
    exact Prod.ext (by simp) (by simp)
  · unfold OpenCVAlign.applySim cadd cmul csub
    refine Prod.ext ?_ ?_ <;> simp <;> nlinarith [h1, h2]

theorem geom_d_degenerate (w h : ℕ) (p : Pt) (al be : ℚ) :
    (V4.geom w h p p al be).d = 0 := by
  simp only [V4.geom, V4.rotApply]
  rw [abs_eq_zero]
  ring

theorem geom_newW_nonneg (w h : ℕ) (le re : Pt) (al be : ℚ) :
    0 ≤ (V4.geom w h le re al be).newW := by
  simp only [V4.geom]
  apply pyInt_nonneg
  apply mul_nonneg
  · positivity
  · apply div_nonneg
    · norm_num [TARGET_INTER_EYE_DISTANCE]
    · exact abs_nonneg _

theorem geom_newH_nonneg (w h : ℕ) (le re : Pt) (al be : ℚ) :
    0 ≤ (V4.geom w h le re al be).newH := by
  simp only [V4.geom]
  apply pyInt_nonneg
  apply mul_nonneg
  · positivity
  · apply div_nonneg
    · norm_num [TARGET_INTER_EYE_DISTANCE]
    · exact abs_nonneg _

theorem rotApply_id (cx cy x y : ℚ) : V4.rotApply 1 0 cx cy x y = (x, y) := by
  unfold V4.rotApply
  apply Prod.ext <;> simp

theorem geom_clamp_spec (w h : ℕ) (le re : Pt) (al be : ℚ) :
    (V4.geom w h le re al be).cropR = (V4.geom w h le re al be).cropL + 1080 ∧
    (V4.geom w h le re al be).cropB = (V4.geom w h le re al be).cropT + 1080 ∧
    (V4.geom w h le re al be).sx1 = max 0 (V4.geom w h le re al be).cropL ∧
    (V4.geom w h le re al be).sy1 = max 0 (V4.geom w h le re al be).cropT ∧
    (V4.geom w h le re al be).sx2 =
      min (V4.geom w h le re al be).newW (V4.geom w h le re al be).cropR ∧
    (V4.geom w h le re al be).sy2 =
      min (V4.geom w h le re al be).newH (V4.geom w h le re al be).cropB ∧
    (V4.geom w h le re al be).dx1 =
      (V4.geom w h le re al be).sx1 - (V4.geom w h le re al be).cropL ∧
    (V4.geom w h le re al be).dy1 =
      (V4.geom w h le re al be).sy1 - (V4.geom w h le re al be).cropT ∧
    (V4.geom w h le re al be).dx2 =
      (V4.geom w h le re al be).dx1 +
        ((V4.geom w h le re al be).sx2 - (V4.geom w h le re al be).sx1) ∧
    (V4.geom w h le re al be).dy2 =
      (V4.geom w h le re al be).dy1 +
        ((V4.geom w h le re al be).sy2 - (V4.geom w h le re al be).sy1) :=
  ⟨rfl, rfl, rfl, rfl, rfl, rfl, rfl, rfl, rfl, rfl⟩

theorem npSliceLen_of_bounds (n : ℕ) (i j : ℤ) (h0 : 0 ≤ i) (hij : i ≤ j)
    (hn : j ≤ n) : V4.npSliceLen n i j = (j - i).toNat := by
  unfold V4.npSliceLen V4.npIndexClip
  rw [if_neg (by omega), if_neg (by omega)]
  omega

/- Concrete pipeline evaluations, staged per input so that each proof term
stays small.  Input A: a 1080 by 1080 image with the eyes already at the two
targets.  Input B: a 300 by 300 image with the reversed-orientation pair
le = (100, 100), re = (200, 100) of the spec scenario.  Inputs C, D, E: a 100
by 100 image with horizontal standard-orientation pairs placed further and
further to the right of the image, so that the crop rectangle falls beyond
the scaled image.  Input F: a 100 by 100 image with the standard pair
le = (200, 100), re = (100, 100). -/

set_option maxRecDepth 10000 in
theorem geomA_eq : V4.geom 1080 1080 (720, 432) (360, 432) 1 0 =
    { m := 1527, bw := 4134, bh := 4134, lx := 2247, ly := 1959, rx := 1887,
      ry := 1959, rxn := 1887, ryn := 1959, d := 360, s := 1, newW := 4134,
      newH := 4134, lxs := 2247, lys := 1959, rxs := 1887, rys := 1959,
      ecx := 2067, ecy := 1959, cropL := 1527, cropT := 1527, cropR := 2607,
      cropB := 2607, sx1 := 1527, sy1 := 1527, sx2 := 2607, sy2 := 2607,
      dx1 := 0, dy1 := 0, dx2 := 1080, dy2 := 1080 } := by
  simp only [V4.geom, V4.rotApply, pyInt, TARGET_INTER_EYE_DISTANCE,
    TARGET_LEFT_EYE, TARGET_RIGHT_EYE, OUTPUT_SIZE]
  norm_num

theorem copyA_ok : V4.copyOK (V4.geom 1080 1080 (720, 432) (360, 432) 1 0) = true := by
  rw [geomA_eq]
  unfold V4.copyOK V4.npSliceLen V4.npIndexClip
  simp only [OUTPUT_SIZE]
  norm_num
  omega

theorem alignA_ok :
    V4.align_face (some (1080, 1080)) (720, 432) (360, 432) 1 0 =
      .ok (1080, 1080) := by
  simp only [V4.align_face]
  rw [copyA_ok, geomA_eq]
  norm_num
  rfl

set_option maxRecDepth 10000 in
theorem geomB_eq : V4.geom 300 300 (100, 100) (200, 100) 1 0 =
    { m := 424, bw := 1148, bh := 1148, lx := 524, ly := 524, rx := 624,
      ry := 524, rxn := 624, ryn := 524, d := 100, s := 18/5, newW := 4132,
      newH := 4132, lxs := 9432/5, lys := 9432/5, rxs := 11232/5,
      rys := 9432/5, ecx := 10332/5, ecy := 9432/5, cropL := 1526,
      cropT := 1454, cropR := 2606, cropB := 2534, sx1 := 1526, sy1 := 1454,
      sx2 := 2606, sy2 := 2534, dx1 := 0, dy1 := 0, dx2 := 1080,
      dy2 := 1080 } := by
  simp only [V4.geom, V4.rotApply, pyInt, TARGET_INTER_EYE_DISTANCE,
    TARGET_LEFT_EYE, TARGET_RIGHT_EYE, OUTPUT_SIZE]
  norm_num

set_option maxRecDepth 10000 in
theorem geomC_eq : V4.geom 100 100 (711, 50) (1071, 50) 1 0 =
    { m := 141, bw := 382, bh := 382, lx := 852, ly := 191, rx := 1212,
      ry := 191, rxn := 1212, ryn := 191, d := 360, s := 1, newW := 382,
      newH := 382, lxs := 852, lys := 191, rxs := 1212, rys := 191,
      ecx := 1032, ecy := 191, cropL := 492, cropT := -241, cropR := 1572,
      cropB := 839, sx1 := 492, sy1 := 0, sx2 := 382, sy2 := 382,
      dx1 := 0, dy1 := 241, dx2 := -110, dy2 := 623 } := by
  simp only [V4.geom, V4.rotApply, pyInt, TARGET_INTER_EYE_DISTANCE,
    TARGET_LEFT_EYE, TARGET_RIGHT_EYE, OUTPUT_SIZE]
  norm_num

theorem copyC_fails : V4.copyOK (V4.geom 100 100 (711, 50) (1071, 50) 1 0) = false := by
  rw [geomC_eq]
  unfold V4.copyOK V4.npSliceLen V4.npIndexClip
  simp only [OUTPUT_SIZE]
  norm_num
  omega

theorem alignC_crashes :
    V4.align_face (some (100, 100)) (711, 50) (1071, 50) 1 0 =
      .error .copyShapeMismatch := by
  simp only [V4.align_face]
  rw [copyC_fails, geomC_eq]
  norm_num

set_option maxRecDepth 10000 in
theorem geomD_eq : V4.geom 100 100 (701, 50) (1061, 50) 1 0 =
    { m := 141, bw := 382, bh := 382, lx := 842, ly := 191, rx := 1202,
      ry := 191, rxn := 1202, ryn := 191, d := 360, s := 1, newW := 382,
      newH := 382, lxs := 842, lys := 191, rxs := 1202, rys := 191,
      ecx := 1022, ecy := 191, cropL := 482, cropT := -241, cropR := 1562,
      cropB := 839, sx1 := 482, sy1 := 0, sx2 := 382, sy2 := 382,
      dx1 := 0, dy1 := 241, dx2 := -100, dy2 := 623 } := by
  simp only [V4.geom, V4.rotApply, pyInt, TARGET_INTER_EYE_DISTANCE,
    TARGET_LEFT_EYE, TARGET_RIGHT_EYE, OUTPUT_SIZE]
  norm_num

theorem copyD_fails : V4.copyOK (V4.geom 100 100 (701, 50) (1061, 50) 1 0) = false := by
  rw [geomD_eq]
  unfold V4.copyOK V4.npSliceLen V4.npIndexClip
  simp only [OUTPUT_SIZE]
  norm_num
  omega

set_option maxRecDepth 10000 in
theorem geomE_eq : V4.geom 100 100 (1681, 50) (2041, 50) 1 0 =
    { m := 141, bw := 382, bh := 382, lx := 1822, ly := 191, rx := 2182,
      ry := 191, rxn := 2182, ryn := 191, d := 360, s := 1, newW := 382,
      newH := 382, lxs := 1822, lys := 191, rxs := 2182, rys := 191,
      ecx := 2002, ecy := 191, cropL := 1462, cropT := -241, cropR := 2542,
      cropB := 839, sx1 := 1462, sy1 := 0, sx2 := 382, sy2 := 382,
      dx1 := 0, dy1 := 241, dx2 := -1080, dy2 := 623 } := by
  simp only [V4.geom, V4.rotApply, pyInt, TARGET_INTER_EYE_DISTANCE,
    TARGET_LEFT_EYE, TARGET_RIGHT_EYE, OUTPUT_SIZE]
  norm_num

theorem copyE_ok : V4.copyOK (V4.geom 100 100 (1681, 50) (2041, 50) 1 0) = true := by
  rw [geomE_eq]
  unfold V4.copyOK V4.npSliceLen V4.npIndexClip
  simp only [OUTPUT_SIZE]
  norm_num
  omega

theorem alignE_ok :
    V4.align_face (some (100, 100)) (1681, 50) (2041, 50) 1 0 =
      .ok (1080, 1080) := by
  simp only [V4.align_face]
  rw [copyE_ok, geomE_eq]
  norm_num
  rfl

set_option maxRecDepth 10000 in
theorem geomF_eq : V4.geom 100 100 (200, 100) (100, 100) 1 0 =
    { m := 141, bw := 382, bh := 382, lx := 341, ly := 241, rx := 241,
      ry := 241, rxn := 241, ryn := 241, d := 100, s := 18/5, newW := 1375,
      newH := 1375, lxs := 6138/5, lys := 4338/5, rxs := 4338/5,
      rys := 4338/5, ecx := 5238/5, ecy := 4338/5, cropL := 507, cropT := 435,
      cropR := 1587, cropB := 1515, sx1 := 507, sy1 := 435, sx2 := 1375,
      sy2 := 1375, dx1 := 0, dy1 := 0, dx2 := 868, dy2 := 940 } := by
  simp only [V4.geom, V4.rotApply, pyInt, TARGET_INTER_EYE_DISTANCE,
    TARGET_LEFT_EYE, TARGET_RIGHT_EYE, OUTPUT_SIZE]
  norm_num

theorem estB_eq : OpenCVAlign.estimateAffinePartial2D (100, 100) (200, 100) =
    some ((-18/5, 0), (1080, 792)) := by
  unfold OpenCVAlign.estimateAffinePartial2D
  rw [if_neg (by norm_num [Prod.ext_iff])]
  unfold cdiv csub cmul cnormSq TARGET_LEFT_EYE TARGET_RIGHT_EYE
  norm_num

theorem estA_eq : OpenCVAlign.estimateAffinePartial2D (720, 432) (360, 432) =
    some ((1, 0), (0, 0)) := by
  unfold OpenCVAlign.estimateAffinePartial2D
  rw [if_neg (by norm_num [Prod.ext_iff])]
  unfold cdiv csub cmul cnormSq TARGET_LEFT_EYE TARGET_RIGHT_EYE
  norm_num

/- Claim theorems. -/

/-- C1: the landmark invariant fails on the multi-step align_face of
align-photo-v4.py.  For the decodable 300 by 300 image and the non-degenerate
pair left = (100, 100), right = (200, 100), the code computes rotation angle
exactly 0 (so the rotation coefficients are cos 0 = 1 and sin 0 = 0), and the
composite transform then places the left eye at (360.4, 432.4) in the output
canvas, 359.6 pixels from TARGET_LEFT_EYE = (720, 432) and far beyond the
1e-3 tolerance, while the closed-form align_photo_opencv.py transform maps
the same left eye to (720, 432) exactly. -/
theorem c1_v4_left_eye_misses_target :
    V4.angle_deg (100 - 200) (100 - 100) = some 0 ∧
    V4.outLeft (V4.geom 300 300 (100, 100) (200, 100) 1 0) = (1802/5, 2162/5) ∧
    ¬ (|(V4.outLeft (V4.geom 300 300 (100, 100) (200, 100) 1 0)).1 -
        TARGET_LEFT_EYE.1| ≤ 1/1000) ∧
    (OpenCVAlign.estimateAffinePartial2D (100, 100) (200, 100)).map
      (fun M => OpenCVAlign.applySim M (100, 100)) = some TARGET_LEFT_EYE := by
  refine ⟨?_, ?_, ?_, ?_⟩
  · unfold V4.angle_deg
    norm_num
  · rw [geomB_eq]
    unfold V4.outLeft
    norm_num
  · rw [geomB_eq]
    unfold V4.outLeft TARGET_LEFT_EYE
    norm_num
    rw [lt_abs]
    left
    norm_num
  · rw [estB_eq]
    unfold OpenCVAlign.applySim cadd cmul TARGET_LEFT_EYE
    simp only [Option.map_some']
    norm_num

/-- C2: there is no degenerate-landmark guard in either implementation.  For
left_eye = right_eye = (50, 50) the v4 pipeline reaches the scale step with a
current eye distance of exactly 0 for every rotation coefficient pair (the
rotation fixes its center), performs the unguarded division producing an
infinite scale, and crashes at the following int() conversion; the opencv
variant gets no model from estimateAffinePartial2D and crashes inside
warpAffine.  Neither raises a DegenerateLandmarksError, which does not exist
in the code base. -/
theorem c2_degenerate_division_unguarded (w h : ℕ) (al be : ℚ) :
    (V4.geom w h (50, 50) (50, 50) al be).d = 0 ∧
    V4.align_face (some (w, h)) (50, 50) (50, 50) al be =
      .error .divisionByZeroEyeDistance ∧
    OpenCVAlign.align_face (some (w, h)) (50, 50) (50, 50) =
      .error .warpNullMatrix := by
  have hd := geom_d_degenerate w h (50, 50) al be
  refine ⟨hd, ?_, ?_⟩
  · simp only [V4.align_face]
    rw [if_pos hd]
  · simp [OpenCVAlign.align_face, OpenCVAlign.estimateAffinePartial2D]

/-- C3: for left = (100, 100), right = (200, 100) the closed-form variant
computes the similarity alpha = (-18/5, 0): a real negative coefficient,
that is rotation by 180 degrees with scale 18/5 = 3.6 (its squared modulus
is (18/5)^2), exactly as the spec scenario demands; but the v4 variant at
the cited angle-computation lines computes angle_deg = 0, not 180 (its scale
factor is the correct 18/5). -/
theorem c3_closed_form_180_but_v4_angle_zero :
    OpenCVAlign.estimateAffinePartial2D (100, 100) (200, 100) =
      some ((-18/5, 0), (1080, 792)) ∧
    cnormSq (-18/5, 0) = (18/5) ^ 2 ∧
    (V4.geom 300 300 (100, 100) (200, 100) 1 0).s = 18/5 ∧
    V4.angle_deg (100 - 200) (100 - 100) = some 0 ∧
    ((0 : ℚ) ≠ 180) := by
  refine ⟨estB_eq, ?_, ?_, ?_, by norm_num⟩
  · unfold cnormSq
    norm_num
  · rw [geomB_eq]
  · unfold V4.angle_deg
    norm_num

/-- C5: a byte input that does not decode (cv2.imread and cv2.imdecode give
None) makes both implementations abort with their decode-failure outcome and
produce no output image: v4 returns None, the opencv variant returns the
failure dictionary, and no partial raster is ever returned. -/
theorem c5_decode_failure_no_output (le re : Pt) (al be : ℚ) :
    V4.align_face none le re al be = .error .decodeFailure ∧
    OpenCVAlign.align_face none le re = .error .readFailure :=
  ⟨rfl, rfl⟩

/-- C6: both alignment operations are deterministic: they are pure functions
of the decoded image, the two landmarks and the rotation coefficients, so
equal input tuples give equal outputs. -/
theorem c6_deterministic (i1 i2 : Option (ℕ × ℕ)) (le1 re1 le2 re2 : Pt)
    (al1 be1 al2 be2 : ℚ)
    (h : (i1, le1, re1, al1, be1) = (i2, le2, re2, al2, be2)) :
    V4.align_face i1 le1 re1 al1 be1 = V4.align_face i2 le2 re2 al2 be2 ∧
    OpenCVAlign.align_face i1 le1 re1 = OpenCVAlign.align_face i2 le2 re2 := by
  cases h
  exact ⟨rfl, rfl⟩

/-- Witness for C6 at a concrete input tuple. -/
theorem c6_deterministic_witness :
    ((some (300, 300), ((100 : ℚ), (100 : ℚ)), ((200 : ℚ), (100 : ℚ)),
        (1 : ℚ), (0 : ℚ)) =
      (some (300, 300), ((100 : ℚ), (100 : ℚ)), ((200 : ℚ), (100 : ℚ)),
        (1 : ℚ), (0 : ℚ))) ∧
    V4.align_face (some (300, 300)) (100, 100) (200, 100) 1 0 =
      V4.align_face (some (300, 300)) (100, 100) (200, 100) 1 0 ∧
    OpenCVAlign.align_face (some (300, 300)) (100, 100) (200, 100) =
      OpenCVAlign.align_face (some (300, 300)) (100, 100) (200, 100) :=
  ⟨rfl,
   (c6_deterministic (some (300, 300)) (some (300, 300)) (100, 100) (200, 100)
     (100, 100) (200, 100) 1 0 1 0 rfl).1,
   (c6_deterministic (some (300, 300)) (some (300, 300)) (100, 100) (200, 100)
     (100, 100) (200, 100) 1 0 1 0 rfl).2⟩

/-- C7: aligning an already-aligned configuration, eyes exactly at
TARGET_LEFT_EYE and TARGET_RIGHT_EYE on a 1080 by 1080 canvas, is the
identity: the closed-form similarity is alpha = (1, 0), beta = (0, 0), that
is scale 1, rotation 0 and translation 0 exactly; and the v4 pipeline
computes angle 0, scale factor 1, and returns both eyes exactly to the two
target positions. -/
theorem c7_roundtrip_identity :
    OpenCVAlign.estimateAffinePartial2D (720, 432) (360, 432) =
      some ((1, 0), (0, 0)) ∧
    V4.angle_deg (720 - 360) (432 - 432) = some 0 ∧
    (V4.geom 1080 1080 (720, 432) (360, 432) 1 0).s = 1 ∧
    V4.outLeft (V4.geom 1080 1080 (720, 432) (360, 432) 1 0) =
      TARGET_LEFT_EYE ∧
    V4.outRight (V4.geom 1080 1080 (720, 432) (360, 432) 1 0) =
      TARGET_RIGHT_EYE := by
  refine ⟨estA_eq, ?_, ?_, ?_, ?_⟩
  · unfold V4.angle_deg
    norm_num
  · rw [geomA_eq]
  · rw [geomA_eq]
    unfold V4.outLeft TARGET_LEFT_EYE
    norm_num
  · rw [geomA_eq]
    unfold V4.outRight TARGET_RIGHT_EYE
    norm_num

theorem alignA_cv_ok :
    OpenCVAlign.align_face (some (1080, 1080)) (720, 432) (360, 432) =
      .ok (1080, 1080) := by
  simp only [OpenCVAlign.align_face, estA_eq]
  rfl

theorem alignC_cv_ok :
    OpenCVAlign.align_face (some (100, 100)) (711, 50) (1071, 50) =
      .ok OUTPUT_SIZE := by
  simp only [OpenCVAlign.align_face, OpenCVAlign.estimateAffinePartial2D]
  rw [if_neg (by norm_num [Prod.ext_iff])]

/-- C4 (amended): whenever either alignment operation returns a raster, that
raster has dimensions exactly OUTPUT_SIZE = (1080, 1080), regardless of the
input image dimensions: the opencv variant passes OUTPUT_SIZE to warpAffine
and the v4 variant copies into a canvas created with those dimensions.  The
two conjuncts are separate implications, one per variant, so each applies on
its own whenever that variant returns a raster, even when the other one
crashes. -/
theorem c4_output_size_when_raster_produced
    (img : Option (ℕ × ℕ)) (le re : Pt) (al be : ℚ) :
    (∀ r, V4.align_face img le re al be = .ok r → r = OUTPUT_SIZE) ∧
    (∀ r, OpenCVAlign.align_face img le re = .ok r → r = OUTPUT_SIZE) := by
  constructor
  · intro r h1
    cases img with
    | none => simp [V4.align_face] at h1
    | some wh =>
      obtain ⟨w, h⟩ := wh
      simp only [V4.align_face] at h1
      split_ifs at h1
      all_goals simp_all
  · intro r h2
    cases img with
    | none => simp [OpenCVAlign.align_face] at h2
    | some wh =>
      simp only [OpenCVAlign.align_face] at h2
      rcases hM : OpenCVAlign.estimateAffinePartial2D le re with _ | M
      · rw [hM] at h2
        simp_all
      · rw [hM] at h2
        simp_all

/-- Witness for C4: the v4 implication applied at input A (where v4 returns a
raster), and the opencv implication applied at input C (where opencv returns
a raster while v4 crashes: the case in which only one variant produces
output). -/
theorem c4_output_size_witness :
    V4.align_face (some (1080, 1080)) (720, 432) (360, 432) 1 0 =
      .ok (1080, 1080) ∧
    ((1080, 1080) : ℕ × ℕ) = OUTPUT_SIZE ∧
    OpenCVAlign.align_face (some (100, 100)) (711, 50) (1071, 50) =
      .ok OUTPUT_SIZE ∧
    OUTPUT_SIZE = OUTPUT_SIZE :=
  ⟨alignA_ok,
   (c4_output_size_when_raster_produced (some (1080, 1080)) (720, 432)
      (360, 432) 1 0).1 (1080, 1080) alignA_ok,
   alignC_cv_ok,
   (c4_output_size_when_raster_produced (some (100, 100)) (711, 50)
      (1071, 50) 1 0).2 OUTPUT_SIZE alignC_cv_ok⟩

/-- Counterexample for C4 as stated: the decodable 100 by 100 image with the
non-degenerate horizontal pair le = (711, 50), re = (1071, 50) (computed
angle exactly 0) makes the v4 pipeline crash in the canvas copy (numpy
ValueError on mismatched slice shapes: the crop rectangle lies beyond the
right edge of the scaled image), so no raster of any size is produced. -/
theorem c4_no_raster_counterexample :
    ((711 : ℚ), (50 : ℚ)) ≠ ((1071 : ℚ), (50 : ℚ)) ∧
    V4.angle_deg (711 - 1071) (50 - 50) = some 0 ∧
    V4.align_face (some (100, 100)) (711, 50) (1071, 50) 1 0 =
      .error .copyShapeMismatch := by
  refine ⟨?_, ?_, alignC_crashes⟩
  · norm_num [Prod.ext_iff]
  · unfold V4.angle_deg
    norm_num

/-- C8 (amended): the returned image of align-photo-v4.py is the debug copy,
not the aligned canvas.  For every detection outcome det, including runs
where re-detection found two eyes and green dots are drawn, the overlay
paints the marker pixels: (360, 432), the right-eye target on the vertical
crosshair, is always yellow in the returned image, so whenever the aligned
canvas is not already yellow there the returned image differs from the
canvas at that pixel; and a pixel away from every marker (the crosshair
lines, the target dots, and whatever green dots det produces) keeps its
canvas content. -/
theorem c8_overlay_alters_returned (base : ℕ → ℕ → Color)
    (det : Option ((ℤ × ℤ) × (ℤ × ℤ))) (x y : ℕ)
    (hb : base 360 432 ≠ YELLOW)
    (hx1 : x ≠ 720) (hx2 : x ≠ 360) (hy1 : y ≠ 432) (hy2 : y ≠ 431)
    (hd1 : inDisk 720 432 8 (x : ℤ) (y : ℤ) = false)
    (hd2 : inDisk 360 432 8 (x : ℤ) (y : ℤ) = false)
    (hdet : ∀ e1 e2, det = some (e1, e2) →
      inDisk e1.1 e1.2 6 (x : ℤ) (y : ℤ) = false ∧
      inDisk e2.1 e2.2 6 (x : ℤ) (y : ℤ) = false) :
    V4.overlayPix base det 360 432 = YELLOW ∧
    V4.overlayPix base det 360 432 ≠ base 360 432 ∧
    V4.overlayPix base det x y = base x y := by
  have hY : V4.overlayPix base det 360 432 = YELLOW := by
    unfold V4.overlayPix
    norm_num
  refine ⟨hY, ?_, ?_⟩
  · rw [hY]
    exact fun hc => hb hc.symm
  · unfold V4.overlayPix
    rw [if_neg (by simp [hx1, hx2]), if_neg (by simp [hy1, hy2]),
      if_neg (by simp [hd1, hd2])]
    cases det with
    | none => rfl
    | some e =>
      obtain ⟨e1, e2⟩ := e
      obtain ⟨g1, g2⟩ := hdet e1 e2 rfl
      simp [g1, g2]

/-- Witness for C8 on the all-white base canvas at the probe pixel (0, 0),
with a detection outcome present (green dots at (500, 500) and (600, 600)),
exercising the two-eyes-detected overlay path. -/
theorem c8_overlay_witness :
    (fun _ _ => WHITE : ℕ → ℕ → Color) 360 432 ≠ YELLOW ∧
    inDisk 720 432 8 0 0 = false ∧
    inDisk 360 432 8 0 0 = false ∧
    inDisk 500 500 6 0 0 = false ∧
    inDisk 600 600 6 0 0 = false ∧
    V4.overlayPix (fun _ _ => WHITE) (some ((500, 500), (600, 600))) 360 432 =
      YELLOW ∧
    V4.overlayPix (fun _ _ => WHITE) (some ((500, 500), (600, 600))) 360 432 ≠
      (fun _ _ => WHITE : ℕ → ℕ → Color) 360 432 ∧
    V4.overlayPix (fun _ _ => WHITE) (some ((500, 500), (600, 600))) 0 0 =
      (fun _ _ => WHITE : ℕ → ℕ → Color) 0 0 :=
  ⟨by decide, by decide, by decide, by decide, by decide,
   (c8_overlay_alters_returned (fun _ _ => WHITE)
      (some ((500, 500), (600, 600))) 0 0 (by decide) (by decide) (by decide)
      (by decide) (by decide) (by decide) (by decide)
      (fun e1 e2 h => by
        injection h with h0
        injection h0 with h1 h2
        subst h1
        subst h2
        exact ⟨by decide, by decide⟩)).1,
   (c8_overlay_alters_returned (fun _ _ => WHITE)
      (some ((500, 500), (600, 600))) 0 0 (by decide) (by decide) (by decide)
      (by decide) (by decide) (by decide) (by decide)
      (fun e1 e2 h => by
        injection h with h0
        injection h0 with h1 h2
        subst h1
        subst h2
        exact ⟨by decide, by decide⟩)).2.1,
   (c8_overlay_alters_returned (fun _ _ => WHITE)
      (some ((500, 500), (600, 600))) 0 0 (by decide) (by decide) (by decide)
      (by decide) (by decide) (by decide) (by decide)
      (fun e1 e2 h => by
        injection h with h0
        injection h0 with h1 h2
        subst h1
        subst h2
        exact ⟨by decide, by decide⟩)).2.2⟩

/-- Counterexample for C8 as stated: a complete concrete run of the v4
pipeline, input E, whose aligned canvas is entirely white (the copied block
is empty); the returned debug image holds yellow at pixel (360, 432) while
the aligned canvas holds white there, so the returned pixel content is not
the pre-overlay canvas content. -/
theorem c8_returned_differs_counterexample :
    V4.align_face (some (100, 100)) (1681, 50) (2041, 50) 1 0 =
      .ok (1080, 1080) ∧
    V4.canvasPix (V4.geom 100 100 (1681, 50) (2041, 50) 1 0) V4.constWhite
      360 432 = WHITE ∧
    V4.overlayPix
      (V4.canvasPix (V4.geom 100 100 (1681, 50) (2041, 50) 1 0) V4.constWhite)
      none 360 432 = YELLOW ∧
    YELLOW ≠ WHITE := by
  refine ⟨alignE_ok, ?_, ?_, by decide⟩
  · rw [geomE_eq]
    unfold V4.canvasPix
    norm_num
  · unfold V4.overlayPix
    norm_num

theorem idealOut_horizontal (w h : ℕ) (le re : Pt) (hy : le.2 = re.2)
    (hx : re.1 < le.1) :
    V4.idealOut w h le re 1 0 = (TARGET_LEFT_EYE, TARGET_RIGHT_EYE) := by
  unfold V4.idealOut
  simp only [V4.geom, rotApply_id, TARGET_INTER_EYE_DISTANCE, TARGET_LEFT_EYE,
    TARGET_RIGHT_EYE, OUTPUT_SIZE]
  have habs : |re.1 + ((Nat.sqrt (w * w + h * h) : ℕ) : ℚ) -
      (le.1 + ((Nat.sqrt (w * w + h * h) : ℕ) : ℚ))| = le.1 - re.1 := by
    rw [abs_sub_comm, abs_of_pos (by linarith)]
    ring
  rw [habs]
  have hne : le.1 - re.1 ≠ 0 := by linarith
  rw [hy]
  refine Prod.ext (Prod.ext ?_ ?_) (Prod.ext ?_ ?_) <;> simp <;> field_simp <;>
    ring

/-- C9 (amended): the two formulations agree only on standard-orientation
horizontal pairs.  For eyes on one horizontal line with the left eye to the
right of the right eye (as in the target layout), the v4 angle is exactly 0
and the ideal real-number multi-step map sends the two landmarks exactly
where the closed-form similarity sends them, namely onto the two targets; on
other orientations the two formulations disagree outright (see the
counterexample), not merely by accumulated rounding. -/
theorem c9_equivalent_on_horizontal_standard_pairs
    (w h : ℕ) (le re : Pt) (hy : le.2 = re.2) (hx : re.1 < le.1) :
    V4.angle_deg (le.1 - re.1) (le.2 - re.2) = some 0 ∧
    V4.idealOut w h le re 1 0 = (TARGET_LEFT_EYE, TARGET_RIGHT_EYE) ∧
    (OpenCVAlign.estimateAffinePartial2D le re).map
        (fun M => (OpenCVAlign.applySim M le, OpenCVAlign.applySim M re)) =
      some (TARGET_LEFT_EYE, TARGET_RIGHT_EYE) := by
  have hne : le ≠ re := by
    intro hc
    rw [hc] at hx
    exact lt_irrefl _ hx
  refine ⟨?_, idealOut_horizontal w h le re hy hx,
    applySim_exact le re hne⟩
  have hcond1 : ¬(le.1 - re.1 = 0 ∧ le.2 - re.2 = 0) := by
    intro hc
    have h1 := hc.1
    linarith
  have hcond2 : le.2 - re.2 = 0 := by
    rw [hy]
    ring
  unfold V4.angle_deg
  rw [if_neg hcond1, if_pos hcond2]

/-- Witness for C9 on the standard pair le = (200, 100), re = (100, 100). -/
theorem c9_equivalence_witness :
    (((200 : ℚ), (100 : ℚ)).2 = ((100 : ℚ), (100 : ℚ)).2) ∧
    (((100 : ℚ), (100 : ℚ)).1 < ((200 : ℚ), (100 : ℚ)).1) ∧
    V4.angle_deg (((200 : ℚ), (100 : ℚ)).1 - ((100 : ℚ), (100 : ℚ)).1)
      (((200 : ℚ), (100 : ℚ)).2 - ((100 : ℚ), (100 : ℚ)).2) = some 0 ∧
    V4.idealOut 100 100 (200, 100) (100, 100) 1 0 =
      (TARGET_LEFT_EYE, TARGET_RIGHT_EYE) ∧
    (OpenCVAlign.estimateAffinePartial2D (200, 100) (100, 100)).map
        (fun M => (OpenCVAlign.applySim M (200, 100),
          OpenCVAlign.applySim M (100, 100))) =
      some (TARGET_LEFT_EYE, TARGET_RIGHT_EYE) :=
  ⟨rfl, by norm_num,
   (c9_equivalent_on_horizontal_standard_pairs 100 100 (200, 100) (100, 100)
      rfl (by norm_num)).1,
   (c9_equivalent_on_horizontal_standard_pairs 100 100 (200, 100) (100, 100)
      rfl (by norm_num)).2.1,
   (c9_equivalent_on_horizontal_standard_pairs 100 100 (200, 100) (100, 100)
      rfl (by norm_num)).2.2⟩

/-- Counterexample for C9 as stated: on the reversed-orientation pair
le = (100, 100), re = (200, 100) (v4 angle exactly 0), even the ideal
real-number multi-step map, with no truncation at all, sends the left eye to
(360, 432), while the closed-form similarity sends it to (720, 432): the two
formulations differ by 360 pixels in the ideal transform, so they are not
mathematically equivalent. -/
theorem c9_formulations_differ_counterexample :
    V4.angle_deg (100 - 200) (100 - 100) = some 0 ∧
    (V4.idealOut 300 300 (100, 100) (200, 100) 1 0).1 = (360, 432) ∧
    (OpenCVAlign.estimateAffinePartial2D (100, 100) (200, 100)).map
      (fun M => OpenCVAlign.applySim M (100, 100)) = some (720, 432) ∧
    (((360 : ℚ), (432 : ℚ)) ≠ ((720 : ℚ), (432 : ℚ))) := by
  refine ⟨?_, ?_, ?_, by norm_num [Prod.ext_iff]⟩
  · unfold V4.angle_deg
    norm_num
  · unfold V4.idealOut
    rw [geomB_eq]
    simp only [OUTPUT_SIZE, TARGET_LEFT_EYE]
    norm_num
  · rw [estB_eq]
    unfold OpenCVAlign.applySim cadd cmul
    simp only [Option.map_some']
    norm_num [Prod.ext_iff]

/-- C10 (amended): whenever the crop rectangle meets the scaled image in both
axes (crop_left at most the scaled width, crop_right nonnegative, and the
vertical analogues), the clamped slice bounds are ordered, in bounds and
shape-consistent, and the numpy canvas copy succeeds.  When the rectangle
lies strictly beyond the scaled image the destination stop index goes
negative, so the claimed bound 0 <= dst_x2 itself fails, and the copy can
then fail outright: it does at the counterexample, which is beyond the right
edge by less than the canvas width; a rectangle beyond the edge by at least
the canvas width instead gives two empty slices and a blank canvas (input E,
used by the C8 run). -/
theorem c10_bounds_consistent_when_crop_meets_image
    (w h : ℕ) (le re : Pt) (al be : ℚ) (g : V4.Geom)
    (hg : g = V4.geom w h le re al be)
    (hL : g.cropL ≤ g.newW) (hR : 0 ≤ g.cropR)
    (hT : g.cropT ≤ g.newH) (hB : 0 ≤ g.cropB) :
    (0 ≤ g.dx1 ∧ g.dx1 ≤ g.dx2 ∧ g.dx2 ≤ 1080 ∧
     0 ≤ g.dy1 ∧ g.dy1 ≤ g.dy2 ∧ g.dy2 ≤ 1080) ∧
    (0 ≤ g.sx1 ∧ g.sx1 ≤ g.sx2 ∧ g.sx2 ≤ g.newW ∧
     0 ≤ g.sy1 ∧ g.sy1 ≤ g.sy2 ∧ g.sy2 ≤ g.newH) ∧
    g.sx2 - g.sx1 = g.dx2 - g.dx1 ∧ g.sy2 - g.sy1 = g.dy2 - g.dy1 ∧
    V4.copyOK g = true := by
  have hspec := geom_clamp_spec w h le re al be
  rw [← hg] at hspec
  obtain ⟨hcR, hcB, hsx1, hsy1, hsx2, hsy2, hdx1, hdy1, hdx2, hdy2⟩ := hspec
  have hW := geom_newW_nonneg w h le re al be
  have hH := geom_newH_nonneg w h le re al be
  rw [← hg] at hW hH
  refine ⟨⟨?_, ?_, ?_, ?_, ?_, ?_⟩, ⟨?_, ?_, ?_, ?_, ?_, ?_⟩, ?_, ?_, ?_⟩ <;>
    try omega
  unfold V4.copyOK
  simp only [OUTPUT_SIZE]
  rw [npSliceLen_of_bounds _ _ _ (by omega) (by omega) (by omega),
    npSliceLen_of_bounds _ _ _ (by omega) (by omega) (by omega),
    npSliceLen_of_bounds _ _ _ (by omega) (by omega) (by omega),
    npSliceLen_of_bounds _ _ _ (by omega) (by omega) (by omega)]
  have e2 : (g.sx2 - g.sx1).toNat = (g.dx2 - g.dx1).toNat := by omega
  have e3 : (g.sy2 - g.sy1).toNat = (g.dy2 - g.dy1).toNat := by omega
  rw [e2, e3]
  simp

/-- Witness for C10 at input F, whose crop rectangle meets the scaled
image. -/
theorem c10_bounds_witness :
    ((V4.geom 100 100 (200, 100) (100, 100) 1 0).cropL ≤
      (V4.geom 100 100 (200, 100) (100, 100) 1 0).newW) ∧
    (0 ≤ (V4.geom 100 100 (200, 100) (100, 100) 1 0).cropR) ∧
    ((V4.geom 100 100 (200, 100) (100, 100) 1 0).cropT ≤
      (V4.geom 100 100 (200, 100) (100, 100) 1 0).newH) ∧
    (0 ≤ (V4.geom 100 100 (200, 100) (100, 100) 1 0).cropB) ∧
    (V4.geom 100 100 (200, 100) (100, 100) 1 0).sx2 -
        (V4.geom 100 100 (200, 100) (100, 100) 1 0).sx1 =
      (V4.geom 100 100 (200, 100) (100, 100) 1 0).dx2 -
        (V4.geom 100 100 (200, 100) (100, 100) 1 0).dx1 ∧
    V4.copyOK (V4.geom 100 100 (200, 100) (100, 100) 1 0) = true :=
  ⟨by rw [geomF_eq]; norm_num, by rw [geomF_eq]; norm_num,
   by rw [geomF_eq]; norm_num, by rw [geomF_eq]; norm_num,
   (c10_bounds_consistent_when_crop_meets_image 100 100 (200, 100) (100, 100)
      1 0 (V4.geom 100 100 (200, 100) (100, 100) 1 0) rfl
      (by rw [geomF_eq]; norm_num) (by rw [geomF_eq]; norm_num)
      (by rw [geomF_eq]; norm_num) (by rw [geomF_eq]; norm_num)).2.2.1,
   (c10_bounds_consistent_when_crop_meets_image 100 100 (200, 100) (100, 100)
      1 0 (V4.geom 100 100 (200, 100) (100, 100) 1 0) rfl
      (by rw [geomF_eq]; norm_num) (by rw [geomF_eq]; norm_num)
      (by rw [geomF_eq]; norm_num) (by rw [geomF_eq]; norm_num)).2.2.2.2⟩

/-- Counterexample for C10 as stated: input D, a crop rectangle lying
entirely to the right of the scaled image by less than the canvas width,
yields dst_x2 = -100 < 0 = dst_x1, so the claimed bound 0 <= dst_x2 fails,
the slices are not shape consistent (numpy reads the destination stop -100
as 980 from the end while the source slice is empty), and the canvas copy
fails. -/
theorem c10_inconsistent_bounds_counterexample :
    (V4.geom 100 100 (701, 50) (1061, 50) 1 0).dx1 = 0 ∧
    (V4.geom 100 100 (701, 50) (1061, 50) 1 0).dx2 = -100 ∧
    ¬ (0 ≤ (V4.geom 100 100 (701, 50) (1061, 50) 1 0).dx2) ∧
    V4.copyOK (V4.geom 100 100 (701, 50) (1061, 50) 1 0) = false := by
  refine ⟨?_, ?_, ?_, copyD_fails⟩
  · rw [geomD_eq]
  · rw [geomD_eq]
  · rw [geomD_eq]
    norm_num

end Aperture
